import Mathlib

/-!
Verification of the player behavior / animation state machine of the
tacticaltwo-game repository, against its specification.

The embedding follows `src/game/world.c` (the variant every claim cites),
together with `src/game/coro.h`, `src/game/game.c`, `src/app/main.c`,
`src/platform/platform_cute.c`, and — for one invariant — the facing-direction
update of `src/game/systems/animation_system.c`.

Floats are modelled as rationals (all constants involved — 150.0, 0.0, 1.0,
-1.0 — and the additions performed on them are exact), C ints as `Int`,
C bools as `Bool`, and clip names as `String`.

A note on the coroutine macros of `src/game/coro.h`, which `world.c` includes:

  #define coro_yield(state_var) \
    do { state_var = __COUNTER__; return 0; case __COUNTER__:; } while (0)

`__COUNTER__` increments on every expansion, so the value stored into
`state_var` is some `c` while the case label generated for the same yield is
`c + 1`.  A resumed call therefore never matches the label of the yield that
suspended it: the `switch` falls through to the trailing `return 0` and the
handler body after the first yield is unreachable.  This contradicts the
header's own documentation ("Yield execution - next call resumes at this
point").  Additionally, in `anim_state_firing` the `coro_end` placed inside
`if (should_finish) { ... }` expands to `ps->coroutine_state = -1; } return 0;`
whose `}` closes the `if` instead of the `switch`, leaving the function with
unbalanced braces: `world.c` is not well-formed C.  Where a claim depends on
the coroutine actually resuming, the handler is modelled from the documented
macro semantics (resume at the yield point, `coro_end` stores the -1 "done"
sentinel); those definitions are marked `Modelled from the spec` below.
-/

namespace TacticalTwo

/-- Player states, from the `PlayerState` enum in `src/game/world.h`
(`PLAYER_STATE_COUNT` is not a state and is never stored). -/
inductive PlayerState where
  | idle
  | walking
  | crouching
  | crouchWalking
  | firing
  | crouchFiring
  | reloading
deriving DecidableEq, Repr

/-- 2D vector (`CF_V2`), components as exact rationals. -/
structure V2 where
  x : ℚ
  y : ℚ
deriving DecidableEq, Repr

/-- `C_PlayerInput` from `world.h`: held movement flags and single-frame
action triggers. -/
structure C_PlayerInput where
  up : Bool
  down : Bool
  left : Bool
  right : Bool
  crouch : Bool
  shoot : Bool
  reload : Bool
deriving DecidableEq, Repr

/-- `C_PlayerController` from `world.h`. -/
structure C_PlayerController where
  walk_speed : ℚ
  facing_direction : V2
deriving DecidableEq, Repr

/-- `C_PlayerState` as used by `world.c` (`current`, `previous`,
`state_timer`, and the coroutine resume cursor `coroutine_state`; the
`world.h` in the snapshot omits the last field although `world.c` reads and
writes it). -/
structure C_PlayerState where
  current : PlayerState
  previous : PlayerState
  state_timer : ℚ
  coroutine_state : ℤ
deriving DecidableEq, Repr

/-- `C_Transform` from `world.h`. -/
structure C_Transform where
  position : V2
  rotation : ℚ
deriving DecidableEq, Repr

/-- `C_Velocity` from `world.h` (a `CF_V2`). -/
abbrev C_Velocity := V2

/-- The sprite state the game code manipulates: the currently playing clip
(set by `cf_sprite_play`, queried by `cf_sprite_is_playing`) and the
horizontal flip scale. -/
structure C_Sprite where
  clip : String
  scale_x : ℚ
deriving DecidableEq, Repr

/-- Per-tick read-only answers of the external sprite/animation resource:
`cf_sprite_current_frame` and `cf_sprite_will_finish`. -/
structure SpriteObs where
  frame : ℤ
  will_finish : Bool
deriving DecidableEq, Repr

/-- The player entity's component row (the only entity `make_player` spawns). -/
structure World where
  input : C_PlayerInput
  controller : C_PlayerController
  ps : C_PlayerState
  transform : C_Transform
  velocity : C_Velocity
  sprite : C_Sprite
deriving DecidableEq, Repr

/-- Per-tick external stimulus: the keys `sys_gather_input` reads, the sprite
resource's answers for this tick, and the fixed timestep `dt`. -/
structure TickInput where
  keys : C_PlayerInput
  obs : SpriteObs
  dt : ℚ
deriving DecidableEq, Repr

/-- `sys_update_player_state`, `world.c` lines 63-112: sync `previous`,
freeze locked states (Reloading/Firing/CrouchFiring) while accumulating
`state_timer`, otherwise pick the new state by input priority and reset
`state_timer` and `coroutine_state` on a transition. -/
def sys_update_player_state (dt : ℚ) (w : World) : World :=
  let input := w.input
  let moving := input.left || input.right
  let ps0 : C_PlayerState := { w.ps with previous := w.ps.current }
  if ps0.current = PlayerState.reloading ∨ ps0.current = PlayerState.firing ∨
      ps0.current = PlayerState.crouchFiring then
    { w with ps := { ps0 with state_timer := ps0.state_timer + dt } }
  else
    let cur : PlayerState :=
      if input.shoot && input.crouch then .crouchFiring
      else if input.shoot then .firing
      else if input.reload then .reloading
      else if input.crouch then .crouching
      else if moving then .walking
      else .idle
    let ps1 := { ps0 with current := cur }
    if ps1.current ≠ ps1.previous then
      { w with ps := { ps1 with state_timer := 0, coroutine_state := 0 } }
    else
      { w with ps := { ps1 with state_timer := ps1.state_timer + dt } }

/-- `sys_update_player_movement`, `world.c` lines 120-158: velocity is
recomputed from state and input (zero while Crouching/CrouchFiring), and the
facing direction follows an exclusive left/right press. -/
def sys_update_player_movement (w : World) : World :=
  let vel : C_Velocity :=
    if w.ps.current = .crouching ∨ w.ps.current = .crouchFiring then
      ⟨0, 0⟩
    else
      ⟨(if w.input.left then -w.controller.walk_speed else 0) +
         (if w.input.right then w.controller.walk_speed else 0), 0⟩
  let fd : V2 :=
    if w.input.right && !w.input.left then ⟨1, 0⟩
    else if w.input.left && !w.input.right then ⟨-1, 0⟩
    else w.controller.facing_direction
  { w with velocity := vel, controller := { w.controller with facing_direction := fd } }

/-- `sys_apply_velocity`, `world.c` lines 165-179: explicit Euler,
`position += velocity * dt`. -/
def sys_apply_velocity (dt : ℚ) (w : World) : World :=
  { w with transform :=
      { w.transform with position :=
          ⟨w.transform.position.x + w.velocity.x * dt,
           w.transform.position.y + w.velocity.y * dt⟩ } }

/-- Result of one per-tick invocation of an animation state handler: the
sprite and player-state components it may write, plus an instrumentation flag
recording whether this invocation evaluated a finish condition
(`cf_sprite_will_finish` or the `cf_sprite_current_frame >= 3` comparison). -/
structure AnimResult where
  sprite : C_Sprite
  ps : C_PlayerState
  checked_finish : Bool
deriving DecidableEq, Repr

/-- The value `coro_yield` in `src/game/coro.h` stores into the cursor: the
first of the two `__COUNTER__` expansions in the macro body, some `c`. -/
def coro_yield_store (c : ℕ) : ℤ := c

/-- The case label `coro_yield` generates for the same yield: the second
`__COUNTER__` expansion, `c + 1`. -/
def coro_yield_case (c : ℕ) : ℤ := c + 1

/-- `anim_state_crouch_firing`, `world.c` lines 284-305, under the literal
expansion of the `coro.h` macros (this handler's braces are balanced, so
unlike `anim_state_firing` it is well-formed C).  `c` is the value
`__COUNTER__` has at the handler's first yield; the expansion is

    switch (cursor) { case 0:
      if (!is_playing "GunCrouchFire") play "GunCrouchFire";
      do { cursor = c; return; case c+1:; } while(0);
      while (timer > 0 && !will_finish) {
        do { cursor = c+2; return; case c+3:; } while(0); }
      current = CROUCHING; cursor = -1; } return;

A cursor of `c` or `c+2` (the only values the yields ever store) matches no
case label, so the switch body is skipped entirely and the call is a no-op. -/
def anim_state_crouch_firing (c : ℕ) (obs : SpriteObs) (sp : C_Sprite)
    (ps : C_PlayerState) : AnimResult :=
  if ps.coroutine_state = 0 then
    let sp := if sp.clip ≠ "GunCrouchFire" then { sp with clip := "GunCrouchFire" } else sp
    ⟨sp, { ps with coroutine_state := coro_yield_store c }, false⟩
  else if ps.coroutine_state = coro_yield_case c ∨
      ps.coroutine_state = coro_yield_case (c + 2) then
    if 0 < ps.state_timer then
      if obs.will_finish then
        ⟨sp, { ps with current := .crouching, coroutine_state := -1 }, true⟩
      else
        ⟨sp, { ps with coroutine_state := coro_yield_store (c + 2) }, true⟩
    else
      ⟨sp, { ps with current := .crouching, coroutine_state := -1 }, false⟩
  else
    ⟨sp, ps, false⟩

/-- `anim_state_reloading`, `world.c` lines 307-329, under the literal macro
expansion; identical shape to `anim_state_crouch_firing` with clip
"GunReload" and final state Idle.  `c` is `__COUNTER__` at its first yield. -/
def anim_state_reloading (c : ℕ) (obs : SpriteObs) (sp : C_Sprite)
    (ps : C_PlayerState) : AnimResult :=
  if ps.coroutine_state = 0 then
    let sp := if sp.clip ≠ "GunReload" then { sp with clip := "GunReload" } else sp
    ⟨sp, { ps with coroutine_state := coro_yield_store c }, false⟩
  else if ps.coroutine_state = coro_yield_case c ∨
      ps.coroutine_state = coro_yield_case (c + 2) then
    if 0 < ps.state_timer then
      if obs.will_finish then
        ⟨sp, { ps with current := .idle, coroutine_state := -1 }, true⟩
      else
        ⟨sp, { ps with coroutine_state := coro_yield_store (c + 2) }, true⟩
    else
      ⟨sp, { ps with current := .idle, coroutine_state := -1 }, false⟩
  else
    ⟨sp, ps, false⟩

/-- Modelled from the spec: what is missing is a compilable, resumable
`anim_state_firing` — the literal expansion of `world.c` lines 245-281 is
ill-formed C (the `coro_end` inside `if (should_finish)` unbalances the
braces) and the `coro_yield` macro never resumes (store/label mismatch).
This definition follows the handler's statements under the coroutine
semantics `coro.h` documents and spec §4.2 describes: cursor 0 runs the entry
(choose "GunWalkFire" when the entry horizontal velocity is non-zero, else
"GunFire", only if neither is already playing) and suspends; cursors 1 and 2
are the two yield points, both of which re-test `state_timer > 0.0f` and then
the finish condition (frame index ≥ 3 while "GunWalkFire" plays, else
`will_finish`); on finish it writes `current = Idle` and the -1 done
sentinel; a -1 (or unknown) cursor is a no-op. -/
def anim_state_firing (obs : SpriteObs) (vel : C_Velocity) (sp : C_Sprite)
    (ps : C_PlayerState) : AnimResult :=
  if ps.coroutine_state = 0 then
    let sp :=
      if sp.clip ≠ "GunFire" ∧ sp.clip ≠ "GunWalkFire" then
        { sp with clip := if vel.x ≠ 0 then "GunWalkFire" else "GunFire" }
      else sp
    ⟨sp, { ps with coroutine_state := 1 }, false⟩
  else if ps.coroutine_state = 1 ∨ ps.coroutine_state = 2 then
    if 0 < ps.state_timer then
      let should_finish :=
        if sp.clip = "GunWalkFire" then decide (3 ≤ obs.frame) else obs.will_finish
      if should_finish then
        ⟨sp, { ps with current := .idle, coroutine_state := -1 }, true⟩
      else
        ⟨sp, { ps with coroutine_state := 2 }, true⟩
    else
      ⟨sp, { ps with coroutine_state := -1 }, false⟩
  else
    ⟨sp, ps, false⟩

/-- Modelled from the spec: resumable looping handler (`anim_state_idle`,
`world.c` lines 188-204) under the documented coroutine semantics — cursor 0
plays the clip if it is not already playing and suspends; the single yield
point (cursor 1) loops forever, never touching `current`. -/
def anim_state_idle_model (sp : C_Sprite) (ps : C_PlayerState) : AnimResult :=
  if ps.coroutine_state = 0 then
    let sp := if sp.clip ≠ "GunAim" then { sp with clip := "GunAim" } else sp
    ⟨sp, { ps with coroutine_state := 1 }, false⟩
  else if ps.coroutine_state = 1 then
    ⟨sp, { ps with coroutine_state := 1 }, false⟩
  else
    ⟨sp, ps, false⟩

/-- Modelled from the spec: resumable `anim_state_walking` (`world.c` lines
206-223), as `anim_state_idle_model` with clip "GunWalk". -/
def anim_state_walking_model (sp : C_Sprite) (ps : C_PlayerState) : AnimResult :=
  if ps.coroutine_state = 0 then
    let sp := if sp.clip ≠ "GunWalk" then { sp with clip := "GunWalk" } else sp
    ⟨sp, { ps with coroutine_state := 1 }, false⟩
  else if ps.coroutine_state = 1 then
    ⟨sp, { ps with coroutine_state := 1 }, false⟩
  else
    ⟨sp, ps, false⟩

/-- Modelled from the spec: resumable `anim_state_crouching` (`world.c` lines
225-242), as `anim_state_idle_model` with clip "GunCrouch". -/
def anim_state_crouching_model (sp : C_Sprite) (ps : C_PlayerState) : AnimResult :=
  if ps.coroutine_state = 0 then
    let sp := if sp.clip ≠ "GunCrouch" then { sp with clip := "GunCrouch" } else sp
    ⟨sp, { ps with coroutine_state := 1 }, false⟩
  else if ps.coroutine_state = 1 then
    ⟨sp, { ps with coroutine_state := 1 }, false⟩
  else
    ⟨sp, ps, false⟩

/-- Modelled from the spec: resumable `anim_state_crouch_firing` under the
documented coroutine semantics (same statements as the literal
`anim_state_crouch_firing` above, but with the yields actually resuming:
cursors 1 and 2 re-test `timer > 0 && !will_finish`, exiting to
`current = Crouching` with the -1 sentinel). -/
def anim_state_crouch_firing_model (obs : SpriteObs) (sp : C_Sprite)
    (ps : C_PlayerState) : AnimResult :=
  if ps.coroutine_state = 0 then
    let sp := if sp.clip ≠ "GunCrouchFire" then { sp with clip := "GunCrouchFire" } else sp
    ⟨sp, { ps with coroutine_state := 1 }, false⟩
  else if ps.coroutine_state = 1 ∨ ps.coroutine_state = 2 then
    if 0 < ps.state_timer then
      if obs.will_finish then
        ⟨sp, { ps with current := .crouching, coroutine_state := -1 }, true⟩
      else
        ⟨sp, { ps with coroutine_state := 2 }, true⟩
    else
      ⟨sp, { ps with current := .crouching, coroutine_state := -1 }, false⟩
  else
    ⟨sp, ps, false⟩

/-- Modelled from the spec: resumable `anim_state_reloading` under the
documented coroutine semantics; exits to `current = Idle`. -/
def anim_state_reloading_model (obs : SpriteObs) (sp : C_Sprite)
    (ps : C_PlayerState) : AnimResult :=
  if ps.coroutine_state = 0 then
    let sp := if sp.clip ≠ "GunReload" then { sp with clip := "GunReload" } else sp
    ⟨sp, { ps with coroutine_state := 1 }, false⟩
  else if ps.coroutine_state = 1 ∨ ps.coroutine_state = 2 then
    if 0 < ps.state_timer then
      if obs.will_finish then
        ⟨sp, { ps with current := .idle, coroutine_state := -1 }, true⟩
      else
        ⟨sp, { ps with coroutine_state := 2 }, true⟩
    else
      ⟨sp, { ps with current := .idle, coroutine_state := -1 }, false⟩
  else
    ⟨sp, ps, false⟩

/-- Type of the per-tick animation phase on the player's row, as dispatched by
`sys_update_animation`: it reads the sprite resource's answers, the
controller, the velocity, the sprite and the player state and may write only
the sprite and the player state. -/
abbrev AnimFn :=
  SpriteObs → C_PlayerController → C_Velocity → C_Sprite → C_PlayerState → AnimResult

/-- The dispatch of `sys_update_animation`, `world.c` lines 342-398, over the
resumable handler models (Crouching and CrouchWalking share the crouching
handler).  The per-tick `cf_sprite_update` advances only the external
resource's internal clock and is reflected in the next tick's `SpriteObs`;
the horizontal flip from `facing_direction` is applied by `tick` below. -/
def sys_update_animation : AnimFn := fun obs _ctrl vel sp ps =>
  match ps.current with
  | .idle => anim_state_idle_model sp ps
  | .walking => anim_state_walking_model sp ps
  | .crouching => anim_state_crouching_model sp ps
  | .crouchWalking => anim_state_crouching_model sp ps
  | .firing => anim_state_firing obs vel sp ps
  | .crouchFiring => anim_state_crouch_firing_model obs sp ps
  | .reloading => anim_state_reloading_model obs sp ps

/-- One frame of `update_world`, `world.c` lines 520-535, with the animation
phase abstracted: `sys_gather_input` (writes the keys), then
`sys_update_player_state`, `sys_update_player_movement`,
`sys_apply_velocity`, then the animation phase followed by the horizontal
flip from `facing_direction` (`world.c` lines 386-394). -/
def tick (anim : AnimFn) (ti : TickInput) (w : World) : World :=
  let w1 := { w with input := ti.keys }
  let w2 := sys_update_player_state ti.dt w1
  let w3 := sys_update_player_movement w2
  let w4 := sys_apply_velocity ti.dt w3
  let r := anim ti.obs w4.controller w4.velocity w4.sprite w4.ps
  let sp := { r.sprite with scale_x := if 0 ≤ w4.controller.facing_direction.x then 1 else -1 }
  { w4 with sprite := sp, ps := r.ps }

/-- `make_player`, `world.c` lines 425-460: the player's initial component
row (walk speed 150, facing right, Idle state with zeroed timer and cursor,
origin transform, zero velocity, and "GunWalk" initially playing). -/
def make_player : World where
  input := ⟨false, false, false, false, false, false, false⟩
  controller := ⟨150, ⟨1, 0⟩⟩
  ps := ⟨.idle, .idle, 0, 0⟩
  transform := ⟨⟨0, 0⟩, 0⟩
  velocity := ⟨0, 0⟩
  sprite := ⟨"GunWalk", 1⟩

/-- Repeated frames from the initial world under an input trace. -/
def runWorld (anim : AnimFn) (tr : ℕ → TickInput) : ℕ → World
  | 0 => make_player
  | n + 1 => tick anim (tr n) (runWorld anim tr n)

/-- The facing-direction update of `player_tick` in
`src/game/systems/animation_system.c` lines 29-34 (the repository's
fiber-coroutine iteration): right wins, then left, else keep the last
facing. -/
def player_tick_facing (input : C_PlayerInput) (fd : V2) : V2 :=
  if input.right then ⟨1, 0⟩
  else if input.left then ⟨-1, 0⟩
  else fd

/-- The world-side game state that survives a hot reload: the component data
plus the generation of the code unit whose function pointers the ECS system
table currently holds. -/
structure EcsWorld where
  world : World
  callback_generation : ℕ
deriving DecidableEq, Repr

/-- `world_hot_reload`, `world.c` lines 550-557: re-register the six system
callbacks against the newly loaded code unit (`ECS_UPDATE_SYSTEM` =
`ecs_set_system_callbacks`); nothing else is touched. -/
def world_hot_reload (new_generation : ℕ) (e : EcsWorld) : EcsWorld :=
  { e with callback_generation := new_generation }

/-- `game_hot_reload`, `src/game/game.c` lines 118-121: adopt the `GameState`
pointer preserved across the swap, then `world_hot_reload`. -/
def game_hot_reload (new_generation : ℕ) (preserved : EcsWorld) : EcsWorld :=
  world_hot_reload new_generation preserved

/-- `GameLibrary` from `src/platform/platform_cute.h` as used by
`platform_cute.c` and `main.c`: the shared-library handle and the six entry
points, each `none` when null. -/
structure GameLibrary where
  ok : Bool
  library : Option ℕ
  init : Option ℕ
  update : Option ℕ
  render : Option ℕ
  shutdown : Option ℕ
  state : Option ℕ
  hot_reload : Option ℕ
deriving DecidableEq, Repr

/-- The zero-initialized `GameLibrary` (`= {0}` in
`platform_load_game_library`, and the result of
`platform_unload_game_library`). -/
def empty_game_library : GameLibrary :=
  ⟨false, none, none, none, none, none, none, none⟩

/-- What the host environment answers during a load attempt: whether
`SDL_GetBasePath` and `SDL_GetPathInfo` succeed, the handle
`cf_load_shared_library` returns (none on failure), and the handle
`cf_load_function` returns for each symbol name (none when missing). -/
structure LoadEnv where
  base_path_ok : Bool
  path_info_ok : Bool
  library_handle : Option ℕ
  symbol : String → Option ℕ

/-- `platform_load_game_library`, `src/platform/platform_cute.c` lines
80-171: resolve the library and then the six entry points in order; every
failure logs an error and returns the partially filled record with
`ok = false`; only when all succeed is `ok` set to true (with no log). -/
def platform_load_game_library (env : LoadEnv) : GameLibrary × List String :=
  if !env.base_path_ok then
    (empty_game_library, ["Failed to get base path"])
  else if !env.path_info_ok then
    (empty_game_library, ["Failed to get path info"])
  else
    match env.library_handle with
    | none => (empty_game_library, ["Failed to load library"])
    | some lib =>
      let gl0 := { empty_game_library with library := some lib }
      match env.symbol "game_init" with
      | none => (gl0, ["Failed to load function"])
      | some f1 =>
        let gl1 := { gl0 with init := some f1 }
        match env.symbol "game_update" with
        | none => (gl1, ["Failed to load function"])
        | some f2 =>
          let gl2 := { gl1 with update := some f2 }
          match env.symbol "game_render" with
          | none => (gl2, ["Failed to load function"])
          | some f3 =>
            let gl3 := { gl2 with render := some f3 }
            match env.symbol "game_shutdown" with
            | none => (gl3, ["Failed to load function"])
            | some f4 =>
              let gl4 := { gl3 with shutdown := some f4 }
              match env.symbol "game_state" with
              | none => (gl4, ["Failed to load function"])
              | some f5 =>
                let gl5 := { gl4 with state := some f5 }
                match env.symbol "game_hot_reload" with
                | none => (gl5, ["Failed to load function"])
                | some f6 =>
                  ({ gl5 with hot_reload := some f6, ok := true }, [])

/-- `platform_unload_game_library`, `platform_cute.c` lines 176-186: unload
the shared library and null every entry point and the handle, `ok = false`. -/
def platform_unload_game_library (_gl : GameLibrary) : GameLibrary :=
  empty_game_library

/-- The hot-reload branch of `on_update`, `src/app/main.c` lines 23-54, up to
(but not including) the `game_library->update()` call that follows it
unconditionally: when the library file changed, the current library is
unloaded first, then the new one is loaded; only a load with `ok` set
replaces the record (and runs `hot_reload`), otherwise the unloaded record is
left in place.  Returns the `GameLibrary` the subsequent
`game_library->update()` call is made through, plus the load log. -/
def on_update (changed : Bool) (env : LoadEnv) (gl : GameLibrary) :
    GameLibrary × List String :=
  if changed then
    let gl0 := platform_unload_game_library gl
    let loaded := platform_load_game_library env
    if loaded.1.ok then (loaded.1, loaded.2) else (gl0, loaded.2)
  else (gl, [])

/-- The next state the spec's priority rules (§4.1, rules 1-6) prescribe for
a non-locked tick, written from the claim's words for comparison with
`sys_update_player_state`. -/
def claimed_next (input : C_PlayerInput) : PlayerState :=
  if input.shoot && input.crouch then .crouchFiring
  else if input.shoot then .firing
  else if input.reload then .reloading
  else if input.crouch then .crouching
  else if input.left || input.right then .walking
  else .idle

/-- All keys released. -/
def keys_off : C_PlayerInput := ⟨false, false, false, false, false, false, false⟩

/-- Only the single-frame shoot trigger set. -/
def keys_shoot : C_PlayerInput := { keys_off with shoot := true }

/-- Shoot triggered while walking right. -/
def keys_shoot_right : C_PlayerInput := { keys_off with shoot := true, right := true }

/-- Sprite answers reporting the clip will finish this tick. -/
def obs_finish : SpriteObs := ⟨0, true⟩

/-- The end-to-end scenario of spec §8: shoot is true for exactly the first
tick with no movement keys, `dt = 1` per tick, and the sprite reports it
will finish on every tick from the second on. -/
def shoot_once_trace : ℕ → TickInput := fun n =>
  if n = 0 then ⟨keys_shoot, obs_finish, 1⟩ else ⟨keys_off, obs_finish, 1⟩

/-- A world mid-way through a one-shot animation (Firing, cursor parked at a
resume point) used to exercise the hot-reload bridge. -/
def mid_firing_ecs_world : EcsWorld :=
  ⟨{ make_player with ps := ⟨.firing, .idle, 1, 5⟩ }, 0⟩

/-- A fully resolved, healthy `GameLibrary` as produced by a successful
`platform_load_game_library`. -/
def loaded_game_library : GameLibrary :=
  ⟨true, some 10, some 11, some 12, some 13, some 14, some 15, some 16⟩

/-- A load environment in which the shared library itself loads but the
`game_update` entry point is missing — `cf_load_function` fails for it. -/
def env_missing_update : LoadEnv where
  base_path_ok := true
  path_info_ok := true
  library_handle := some 20
  symbol := fun s => if s = "game_init" then some 21 else none

theorem sys_update_player_movement_ps (w : World) :
    (sys_update_player_movement w).ps = w.ps := rfl

theorem sys_apply_velocity_ps (dt : ℚ) (w : World) :
    (sys_apply_velocity dt w).ps = w.ps := rfl

/-- Every write of `current` performed by the animation dispatch comes with
the -1 done sentinel in the cursor, and the dispatch never touches
`state_timer`. -/
theorem sys_update_animation_writes (obs : SpriteObs) (ctrl : C_PlayerController)
    (vel : C_Velocity) (sp : C_Sprite) (ps : C_PlayerState) :
    (sys_update_animation obs ctrl vel sp ps).ps.state_timer = ps.state_timer ∧
    ((sys_update_animation obs ctrl vel sp ps).ps.current ≠ ps.current →
      (sys_update_animation obs ctrl vel sp ps).ps.coroutine_state = -1) := by
  cases h : ps.current <;>
    simp [sys_update_animation, h, anim_state_idle_model, anim_state_walking_model,
      anim_state_crouching_model, anim_state_firing, anim_state_crouch_firing_model,
      anim_state_reloading_model] <;>
    split_ifs <;> simp_all

/-- Claim C1: on a non-locked tick, the Behavior State Machine assigns
`current` by strict descending priority — shoot and crouch give CrouchFiring;
else shoot gives Firing; else reload gives Reloading; else crouch gives
Crouching; else left or right gives Walking; else Idle — and in particular
shoot, crouch and reload simultaneously give CrouchFiring, never Reloading or
Firing. -/
theorem claim1_priority_order (dt : ℚ) (w : World)
    (h : ¬(w.ps.current = PlayerState.reloading ∨ w.ps.current = PlayerState.firing ∨
        w.ps.current = PlayerState.crouchFiring)) :
    (sys_update_player_state dt w).ps.current = claimed_next w.input ∧
    (w.input.shoot = true → w.input.crouch = true → w.input.reload = true →
      (sys_update_player_state dt w).ps.current = PlayerState.crouchFiring ∧
      (sys_update_player_state dt w).ps.current ≠ PlayerState.reloading ∧
      (sys_update_player_state dt w).ps.current ≠ PlayerState.firing) := by
  unfold sys_update_player_state claimed_next
  rw [if_neg h]
  cases hs : w.input.shoot <;> cases hc : w.input.crouch <;>
    cases hr : w.input.reload <;> cases hl : w.input.left <;>
    cases hrt : w.input.right <;>
    simp only [hs, hc, hr, hl, hrt, Bool.and_false, Bool.and_true, Bool.or_false,
      Bool.or_true, Bool.false_and, Bool.true_and, Bool.false_or, Bool.true_or,
      if_true, if_false, Bool.false_eq_true, ite_false, ite_true] <;>
    split <;> simp_all

/-- Witness for C1 at a concrete non-locked world with shoot, crouch and
reload all triggered at once. -/
theorem claim1_priority_order_witness :
    ¬(make_player.ps.current = PlayerState.reloading ∨
        make_player.ps.current = PlayerState.firing ∨
        make_player.ps.current = PlayerState.crouchFiring) ∧
    (sys_update_player_state 1
        { make_player with
          input := { keys_off with shoot := true, crouch := true, reload := true } }).ps.current =
      PlayerState.crouchFiring := by
  refine ⟨by decide, ?_⟩
  exact ((claim1_priority_order 1
    { make_player with
      input := { keys_off with shoot := true, crouch := true, reload := true } }
    (by decide)).2 rfl rfl rfl).1

/-- Claim C2: while `current` is Firing, CrouchFiring or Reloading at the
start of a tick, the Behavior State Machine leaves `current` (and the resume
cursor) unchanged and only adds `dt` to `state_timer`, whatever the input;
the movement and physics phases never touch the player state either, so over
the whole tick `current` can change only by the animation phase writing it. -/
theorem claim2_lock_invariant (anim : AnimFn) (ti : TickInput) (w : World)
    (h : w.ps.current = PlayerState.reloading ∨ w.ps.current = PlayerState.firing ∨
      w.ps.current = PlayerState.crouchFiring) :
    let w1 := sys_update_player_state ti.dt { w with input := ti.keys }
    let w2 := sys_apply_velocity ti.dt (sys_update_player_movement w1)
    w1.ps.current = w.ps.current ∧
    w1.ps.state_timer = w.ps.state_timer + ti.dt ∧
    w1.ps.coroutine_state = w.ps.coroutine_state ∧
    (sys_update_player_movement w1).ps = w1.ps ∧
    w2.ps = w1.ps ∧
    (tick anim ti w).ps.current =
      (anim ti.obs w2.controller w2.velocity w2.sprite w2.ps).ps.current := by
  intro w1 w2
  have hw1 : w1 = { { w with input := ti.keys } with
      ps := { { w with input := ti.keys }.ps with
        previous := w.ps.current, state_timer := w.ps.state_timer + ti.dt } } := by
    show sys_update_player_state ti.dt { w with input := ti.keys } = _
    unfold sys_update_player_state
    rw [if_pos h]
  refine ⟨by rw [hw1], by rw [hw1], by rw [hw1], rfl, rfl, rfl⟩

/-- Witness for C2: a concrete tick on a world locked in Firing, with new
input arriving. -/
theorem claim2_lock_invariant_witness :
    ((mid_firing_ecs_world.world.ps.current = PlayerState.reloading ∨
        mid_firing_ecs_world.world.ps.current = PlayerState.firing ∨
        mid_firing_ecs_world.world.ps.current = PlayerState.crouchFiring) ∧
      (sys_update_player_state 1
          { mid_firing_ecs_world.world with input := keys_shoot_right }).ps.current =
        mid_firing_ecs_world.world.ps.current) := by
  refine ⟨by decide, ?_⟩
  exact (claim2_lock_invariant sys_update_animation
    ⟨keys_shoot_right, obs_finish, 1⟩ mid_firing_ecs_world.world (by decide)).1

/-- Counterexample to claim C3: in the shoot-once scenario (under the
documented resumable semantics of the animation process, the only reading in
which the process ever initiates a transition), on the tick where the
animation process moves `current` from Firing to Idle, `state_timer` is not
reset to 0 (the locked state system had already added `dt` this tick) and the
resume cursor holds the -1 done sentinel, not 0. -/
theorem claim3_counterexample :
    (runWorld sys_update_animation shoot_once_trace 2).ps.current ≠
      (runWorld sys_update_animation shoot_once_trace 1).ps.current ∧
    ¬((runWorld sys_update_animation shoot_once_trace 2).ps.state_timer = 0 ∧
      (runWorld sys_update_animation shoot_once_trace 2).ps.coroutine_state = 0) := by
  simp +decide [runWorld, tick, sys_update_player_state, sys_update_player_movement,
    sys_apply_velocity, sys_update_animation, anim_state_idle_model,
    anim_state_firing, make_player, shoot_once_trace, keys_off, keys_shoot, obs_finish]

/-- Claim C3 as amended: transitions decided by the Behavior State Machine
reset `state_timer` and the resume cursor to 0 on that same tick, and on a
tick without such a transition the state system adds `dt` to `state_timer`;
but a transition initiated by the animation process does not reset either —
it leaves `state_timer` at the value already accumulated this tick and stores
the -1 done sentinel in the cursor. -/
theorem claim3_amended_reset_rules (ti : TickInput) (w : World) :
    let w1 := sys_update_player_state ti.dt { w with input := ti.keys }
    let wt := tick sys_update_animation ti w
    (w1.ps.current ≠ w.ps.current →
      w1.ps.state_timer = 0 ∧ w1.ps.coroutine_state = 0) ∧
    (w1.ps.current = w.ps.current →
      w1.ps.state_timer = w.ps.state_timer + ti.dt) ∧
    (wt.ps.current ≠ w1.ps.current →
      wt.ps.coroutine_state = -1 ∧ wt.ps.state_timer = w1.ps.state_timer) := by
  have base : ((sys_update_player_state ti.dt { w with input := ti.keys }).ps.current ≠
        w.ps.current →
      (sys_update_player_state ti.dt { w with input := ti.keys }).ps.state_timer = 0 ∧
        (sys_update_player_state ti.dt { w with input := ti.keys }).ps.coroutine_state = 0) ∧
      ((sys_update_player_state ti.dt { w with input := ti.keys }).ps.current =
          w.ps.current →
        (sys_update_player_state ti.dt { w with input := ti.keys }).ps.state_timer =
          w.ps.state_timer + ti.dt) := by
    unfold sys_update_player_state
    dsimp only
    split
    · exact ⟨fun hcur => absurd rfl hcur, fun _ => rfl⟩
    · cases hs : ti.keys.shoot <;> cases hc : ti.keys.crouch <;>
        cases hr : ti.keys.reload <;> cases hl : ti.keys.left <;>
        cases hrt : ti.keys.right <;>
        simp only [hs, hc, hr, hl, hrt, Bool.and_false, Bool.and_true, Bool.or_false,
          Bool.or_true, Bool.false_and, Bool.true_and, Bool.false_or, Bool.true_or,
          if_true, if_false, Bool.false_eq_true, ite_false, ite_true] <;>
        split <;> simp_all
  have hanim := sys_update_animation_writes ti.obs
    (sys_apply_velocity ti.dt (sys_update_player_movement
      (sys_update_player_state ti.dt { w with input := ti.keys }))).controller
    (sys_apply_velocity ti.dt (sys_update_player_movement
      (sys_update_player_state ti.dt { w with input := ti.keys }))).velocity
    (sys_apply_velocity ti.dt (sys_update_player_movement
      (sys_update_player_state ti.dt { w with input := ti.keys }))).sprite
    (sys_update_player_state ti.dt { w with input := ti.keys }).ps
  exact ⟨base.1, base.2, fun hne => ⟨hanim.2 hne, hanim.1⟩⟩

/-- Witness for C3 as amended: on the first tick of the shoot-once scenario
the state machine transitions Idle to Firing and both the timer and the
cursor are reset, and on the second tick the animation-process transition
leaves the sentinel -1 with the accumulated timer. -/
theorem claim3_amended_reset_rules_witness :
    ((sys_update_player_state 1
        { make_player with input := keys_shoot }).ps.current ≠ make_player.ps.current) ∧
    (sys_update_player_state 1
        { make_player with input := keys_shoot }).ps.state_timer = 0 ∧
    (sys_update_player_state 1
        { make_player with input := keys_shoot }).ps.coroutine_state = 0 := by
  refine ⟨by decide, ?_⟩
  exact (claim3_amended_reset_rules ⟨keys_shoot, obs_finish, 1⟩ make_player).1 (by decide)

/-- Claim C4 (the behavior the source's statements and comments intend; the
shipped coroutine macros cannot execute it — see `anim_state_firing`'s doc
comment): on entering Firing the clip is chosen from the entry horizontal
velocity ("GunWalkFire" iff it is non-zero) and the choice is never
re-sampled — the resume steps are independent of the velocity argument; once
resumed with a positive timer, the process finishes (writing Idle) exactly
when the frame index has reached 3 while "GunWalkFire" plays, and exactly
when the sprite reports it will finish otherwise. -/
theorem claim4_firing_clip_choice_and_finish (obs : SpriteObs) (vel : C_Velocity)
    (sp : C_Sprite) (ps : C_PlayerState) (hcur : ps.current = PlayerState.firing) :
    (ps.coroutine_state = 0 → sp.clip ≠ "GunFire" → sp.clip ≠ "GunWalkFire" →
      (anim_state_firing obs vel sp ps).sprite.clip =
        (if vel.x ≠ 0 then "GunWalkFire" else "GunFire") ∧
      (anim_state_firing obs vel sp ps).ps.current = PlayerState.firing) ∧
    ((ps.coroutine_state = 1 ∨ ps.coroutine_state = 2) → 0 < ps.state_timer →
      (((anim_state_firing obs vel sp ps).ps.current = PlayerState.idle) ↔
        (if sp.clip = "GunWalkFire" then 3 ≤ obs.frame else obs.will_finish = true)) ∧
      (∀ vel2 : C_Velocity,
        anim_state_firing obs vel2 sp ps = anim_state_firing obs vel sp ps)) := by
  constructor
  · intro h0 hf hwf
    unfold anim_state_firing
    rw [if_pos h0]
    simp [hf, hwf, hcur]
  · intro hc ht
    have hne : ¬ps.coroutine_state = 0 := by rcases hc with hc | hc <;> omega
    unfold anim_state_firing
    rw [if_neg hne, if_pos hc, if_pos ht]
    constructor
    · split_ifs with hclip <;> dsimp only <;> split <;> simp_all
    · intro vel2
      simp only [if_neg hne]

/-- Witness for C4: resuming with "GunWalkFire" playing, a positive timer and
frame index 3, the process transitions to Idle. -/
theorem claim4_firing_clip_choice_and_finish_witness :
    (anim_state_firing ⟨3, false⟩ ⟨150, 0⟩ ⟨"GunWalkFire", 1⟩
      ⟨PlayerState.firing, PlayerState.idle, 1, 1⟩).ps.current = PlayerState.idle := by
  have h := (claim4_firing_clip_choice_and_finish ⟨3, false⟩ ⟨150, 0⟩ ⟨"GunWalkFire", 1⟩
    ⟨PlayerState.firing, PlayerState.idle, 1, 1⟩ rfl).2 (Or.inl rfl) (by norm_num)
  exact h.1.mpr (by simp)

/-- Claim C5: on the cursor-0 invocation — the tick on which each one-shot
state issues its play call — none of the three handlers evaluates a finish
condition (for the two handlers whose literal macro expansion is well-formed
C this is proved of that faithful embedding; for Firing, of the documented
resumable model), and conversely any invocation that does evaluate a finish
condition starts from a non-zero resume cursor, i.e. at least one tick after
playback began. -/
theorem claim5_no_finish_check_on_play_tick (c₁ c₂ : ℕ) (obs : SpriteObs)
    (vel : C_Velocity) (sp : C_Sprite) (ps : C_PlayerState)
    (h : ps.coroutine_state = 0) :
    (anim_state_crouch_firing c₁ obs sp ps).checked_finish = false ∧
    (anim_state_reloading c₂ obs sp ps).checked_finish = false ∧
    (anim_state_firing obs vel sp ps).checked_finish = false ∧
    (∀ ps2 : C_PlayerState,
      (anim_state_crouch_firing c₁ obs sp ps2).checked_finish = true →
        ps2.coroutine_state ≠ 0) ∧
    (∀ ps2 : C_PlayerState,
      (anim_state_reloading c₂ obs sp ps2).checked_finish = true →
        ps2.coroutine_state ≠ 0) ∧
    (∀ ps2 : C_PlayerState,
      (anim_state_firing obs vel sp ps2).checked_finish = true →
        ps2.coroutine_state ≠ 0) := by
  refine ⟨?_, ?_, ?_, ?_, ?_, ?_⟩
  · unfold anim_state_crouch_firing; rw [if_pos h]
  · unfold anim_state_reloading; rw [if_pos h]
  · unfold anim_state_firing; rw [if_pos h]
  · intro ps2 hchk
    unfold anim_state_crouch_firing at hchk
    split_ifs at hchk <;> simp_all
  · intro ps2 hchk
    unfold anim_state_reloading at hchk
    split_ifs at hchk <;> simp_all
  · intro ps2 hchk
    unfold anim_state_firing at hchk
    split_ifs at hchk <;> simp_all

/-- Witness for C5 at cursor 0 with concrete components. -/
theorem claim5_no_finish_check_on_play_tick_witness :
    (anim_state_crouch_firing 6 obs_finish ⟨"GunCrouch", 1⟩
      ⟨PlayerState.crouchFiring, PlayerState.crouching, 0, 0⟩).checked_finish = false := by
  exact (claim5_no_finish_check_on_play_tick 6 8 obs_finish ⟨0, 0⟩ ⟨"GunCrouch", 1⟩
    ⟨PlayerState.crouchFiring, PlayerState.crouching, 0, 0⟩ rfl).1

/-- Counterexample to claim C6: hot-reloading while a one-shot animation is
mid-flight (resume cursor parked at 5) leaves the resume cursor at 5 — the
bridge (`game_hot_reload` / `world_hot_reload`) re-binds the system callbacks
and resets no cursor at all. -/
theorem claim6_counterexample :
    ¬((game_hot_reload 1 mid_firing_ecs_world).world.ps.coroutine_state = 0) ∧
    (game_hot_reload 1 mid_firing_ecs_world).world.ps.coroutine_state = 5 := by
  exact ⟨by decide, rfl⟩

/-- Claim C6 as amended: across a hot reload the bridge re-binds the six
system callbacks to the newly loaded code unit, and all component data —
`ActorState` (current, previous, state_timer) and everything else — survives
unchanged, *including* the resume cursor, which is not reset to 0 (nor is any
process instance destroyed): a cursor referring to a code-relative execution
position of the old unit is carried over as-is. -/
theorem claim6_amended_hot_reload_preserves_all (g : ℕ) (e : EcsWorld) :
    (game_hot_reload g e).world = e.world ∧
    (game_hot_reload g e).world.ps.coroutine_state = e.world.ps.coroutine_state ∧
    (game_hot_reload g e).callback_generation = g := by
  exact ⟨rfl, rfl, rfl⟩

/-- Claim C7 (end-to-end shoot-once scenario, under the documented resumable
semantics — the only reading in which the Firing state can ever end): the
first tick enters Firing with clip "GunFire"; the tick on which the sprite
reports it will finish sets `current = Idle` and leaves the -1 cursor; but on
the immediately following tick the clip does **not** revert to "GunAim" — the
idle handler is dispatched with the cursor still at the -1 sentinel (the
state system never detects the animation-initiated transition because it
syncs `previous` first), so "GunFire" keeps playing. -/
theorem claim7_end_to_end_gunaim_never_restored :
    (runWorld sys_update_animation shoot_once_trace 1).ps.current =
      PlayerState.firing ∧
    (runWorld sys_update_animation shoot_once_trace 1).sprite.clip = "GunFire" ∧
    (runWorld sys_update_animation shoot_once_trace 2).ps.current =
      PlayerState.idle ∧
    (runWorld sys_update_animation shoot_once_trace 2).ps.coroutine_state = -1 ∧
    (runWorld sys_update_animation shoot_once_trace 3).sprite.clip = "GunFire" ∧
    (runWorld sys_update_animation shoot_once_trace 3).sprite.clip ≠ "GunAim" := by
  simp +decide [runWorld, tick, sys_update_player_state, sys_update_player_movement,
    sys_apply_velocity, sys_update_animation, anim_state_idle_model,
    anim_state_firing, make_player, shoot_once_trace, keys_off, keys_shoot, obs_finish]

/-- Claim C8: velocity is recomputed from scratch every tick — zero in
Crouching/CrouchFiring, otherwise `(right ? +walk_speed : 0) +
(left ? -walk_speed : 0)` horizontally and 0 vertically, independent of the
previous velocity — and the physics phase then advances the position by
exactly `velocity * dt` (explicit Euler). -/
theorem claim8_velocity_recomputed_and_euler (dt : ℚ) (w : World) :
    (sys_update_player_movement w).velocity =
      (if w.ps.current = PlayerState.crouching ∨
          w.ps.current = PlayerState.crouchFiring then
        (⟨0, 0⟩ : V2)
      else
        ⟨(if w.input.right then w.controller.walk_speed else 0) +
           (if w.input.left then -w.controller.walk_speed else 0), 0⟩) ∧
    (∀ v : C_Velocity,
      (sys_update_player_movement { w with velocity := v }).velocity =
        (sys_update_player_movement w).velocity) ∧
    (sys_apply_velocity dt w).transform.position =
      ⟨w.transform.position.x + w.velocity.x * dt,
       w.transform.position.y + w.velocity.y * dt⟩ := by
  refine ⟨?_, fun v => rfl, rfl⟩
  unfold sys_update_player_movement
  split_ifs with hcrouch <;> simp [add_comm]

theorem sys_update_player_state_controller (dt : ℚ) (w : World) :
    (sys_update_player_state dt w).controller = w.controller := by
  unfold sys_update_player_state
  dsimp only
  split_ifs <;> rfl

theorem sys_update_player_state_input (dt : ℚ) (w : World) :
    (sys_update_player_state dt w).input = w.input := by
  unfold sys_update_player_state
  dsimp only
  split_ifs <;> rfl

/-- Within a tick, only `sys_update_player_movement` writes the facing
direction: right alone faces right, left alone faces left, otherwise the
facing carries over from the previous tick. -/
theorem tick_facing_direction (anim : AnimFn) (ti : TickInput) (w : World) :
    (tick anim ti w).controller.facing_direction =
      (if ti.keys.right && !ti.keys.left then (⟨1, 0⟩ : V2)
       else if ti.keys.left && !ti.keys.right then (⟨-1, 0⟩ : V2)
       else w.controller.facing_direction) := by
  show (sys_update_player_movement
      (sys_update_player_state ti.dt { w with input := ti.keys })).controller.facing_direction = _
  unfold sys_update_player_movement
  dsimp only
  rw [sys_update_player_state_input, sys_update_player_state_controller]

/-- Claim C9 evaluated on the failure path: the library file has changed and
the fresh load fails (the new object lacks the `game_update` entry point).
The bridge does log the failure, but — having already unloaded the previous
code unit before the load attempt — it leaves in place a `GameLibrary` whose
`update` pointer is null and whose `ok` flag is false, not the previously
running unit, and the frame loop's unconditional `game_library->update()`
call then goes through that null pointer. -/
theorem claim9_failed_reload_no_valid_update :
    (on_update true env_missing_update loaded_game_library).1.update = none ∧
    (on_update true env_missing_update loaded_game_library).1.ok = false ∧
    (on_update true env_missing_update loaded_game_library).2 =
      ["Failed to load function"] ∧
    loaded_game_library.update = some 12 ∧
    (on_update true env_missing_update loaded_game_library).1 ≠
      loaded_game_library := by
  refine ⟨rfl, rfl, rfl, rfl, by decide⟩

/-- Claim C10: the facing direction is (1,0) at spawn and every write any
system performs — the exclusive left/right update of
`sys_update_player_movement` in `world.c`, and the right-then-left update of
`player_tick` in `animation_system.c` — stores one of the two horizontal unit
vectors, so along every run (whatever the animation phase does) the facing
direction is always exactly (1,0) or (-1,0). -/
theorem claim10_facing_direction_always_unit_horizontal :
    make_player.controller.facing_direction = (⟨1, 0⟩ : V2) ∧
    (∀ (anim : AnimFn) (tr : ℕ → TickInput) (n : ℕ),
      (runWorld anim tr n).controller.facing_direction = (⟨1, 0⟩ : V2) ∨
      (runWorld anim tr n).controller.facing_direction = (⟨-1, 0⟩ : V2)) ∧
    (∀ (i : C_PlayerInput) (fd : V2),
      player_tick_facing i fd = fd ∨ player_tick_facing i fd = (⟨1, 0⟩ : V2) ∨
      player_tick_facing i fd = (⟨-1, 0⟩ : V2)) := by
  refine ⟨rfl, ?_, ?_⟩
  · intro anim tr n
    induction n with
    | zero => exact Or.inl rfl
    | succ n ih =>
      show (tick anim (tr n) (runWorld anim tr n)).controller.facing_direction = _ ∨
        (tick anim (tr n) (runWorld anim tr n)).controller.facing_direction = _
      rw [tick_facing_direction]
      split_ifs
      · exact Or.inl rfl
      · exact Or.inr rfl
      · exact ih
  · intro i fd
    unfold player_tick_facing
    split_ifs
    · exact Or.inr (Or.inl rfl)
    · exact Or.inr (Or.inr rfl)
    · exact Or.inl rfl

end TacticalTwo
